import Mathlib

/-!
Verification of the CenturionAsm assembler (`src/assembler.py`) against its
natural-language specification.

The development shallowly embeds the Python module:

* `Opcode` / `OpcodeGroup` mirror the two dataclasses (lines 8–21);
* `MNEMONICS_entries` lists, in source order, every `key: value` pair written
  in the `MNEMONICS = { ... }` dict literal (lines 24–322), duplicate keys
  included, because a Python dict literal evaluates every pair and later
  bindings silently overwrite earlier ones;
* `MNEMONICS_lookup` is the resulting dict lookup (the last binding wins);
* `cleanLine`, `splitWs`, `lineKey`, `assembleLine`, `assemble` embed the
  `assemble` function (lines 325–346);
* `main_run` embeds the `__main__` block (lines 349–351).
-/

/-- Embeds the Python dataclass `Opcode` (src/assembler.py lines 8–11):
an instruction byte and a free-form parameter description string. -/
structure Opcode where
  instr : Nat
  params : String
deriving DecidableEq, Repr

/-- Embeds the Python dataclass `OpcodeGroup` (src/assembler.py lines 14–21):
six `Optional[Opcode]` fields, one per addressing mode. -/
structure OpcodeGroup where
  literal : Option Opcode
  direct : Option Opcode
  indirect : Option Opcode
  pc_direct : Option Opcode
  pc_indirect : Option Opcode
  register : Option Opcode
deriving DecidableEq, Repr

/-- A value of the `MNEMONICS` dict: either a plain `Opcode` or an
`OpcodeGroup` (the two possible right-hand sides in the dict literal). -/
inductive Mnemonic where
  | op : Opcode → Mnemonic
  | grp : OpcodeGroup → Mnemonic
deriving DecidableEq, Repr

/-- The `key: value` pairs of the `MNEMONICS = { ... }` dict literal
(src/assembler.py lines 24–322), in source order, duplicates included.
Python evaluates every pair; the dict keeps only the last binding per key. -/
def MNEMONICS_entries : List (String × Mnemonic) := [
  ("HLT", Mnemonic.op (Opcode.mk 0x0 "")),
  ("NOP", Mnemonic.op (Opcode.mk 0x1 "")),
  ("SF", Mnemonic.op (Opcode.mk 0x2 "")),
  ("RF", Mnemonic.op (Opcode.mk 0x3 "")),
  ("EI", Mnemonic.op (Opcode.mk 0x4 "")),
  ("DI", Mnemonic.op (Opcode.mk 0x5 "")),
  ("SL", Mnemonic.op (Opcode.mk 0x6 "")),
  ("RL", Mnemonic.op (Opcode.mk 0x7 "")),
  ("CL", Mnemonic.op (Opcode.mk 0x8 "")),
  ("RSR", Mnemonic.op (Opcode.mk 0x9 "")),
  ("RI", Mnemonic.op (Opcode.mk 0x0A "")),
  ("RIM", Mnemonic.op (Opcode.mk 0x0B "")),
  ("ELO", Mnemonic.op (Opcode.mk 0x0C "")),
  ("PCX", Mnemonic.op (Opcode.mk 0x0D "")),
  ("DLY", Mnemonic.op (Opcode.mk 0x0E "")),
  ("SYSRET", Mnemonic.op (Opcode.mk 0x0F "")),
  ("BL", Mnemonic.op (Opcode.mk 0x10 "PC+N")),
  ("BNL", Mnemonic.op (Opcode.mk 0x11 "PC+N")),
  ("BF", Mnemonic.op (Opcode.mk 0x12 "PC+N")),
  ("BNF", Mnemonic.op (Opcode.mk 0x13 "PC+N")),
  ("BZ", Mnemonic.op (Opcode.mk 0x14 "PC+N")),
  ("BNZ", Mnemonic.op (Opcode.mk 0x15 "PC+N")),
  ("BM", Mnemonic.op (Opcode.mk 0x16 "PC+N")),
  ("BP", Mnemonic.op (Opcode.mk 0x17 "PC+N")),
  ("BGZ", Mnemonic.op (Opcode.mk 0x18 "PC+N")),
  ("BLE", Mnemonic.op (Opcode.mk 0x19 "PC+N")),
  ("BS1", Mnemonic.op (Opcode.mk 0x1A "PC+N")),
  ("BS2", Mnemonic.op (Opcode.mk 0x1B "PC+N")),
  ("BS3", Mnemonic.op (Opcode.mk 0x1C "PC+N")),
  ("BS4", Mnemonic.op (Opcode.mk 0x1D "PC+N")),
  ("INR", Mnemonic.op (Opcode.mk 0x20 "Byte Register in high nibble, unsigned constant in low nibble")),
  ("DCR", Mnemonic.op (Opcode.mk 0x21 "Byte Register in high nibble, unsigned constant in low nibble")),
  ("CLR", Mnemonic.op (Opcode.mk 0x22 "Byte Register in high nibble, unsigned constant in low nibble")),
  ("IVR", Mnemonic.op (Opcode.mk 0x23 "Byte Register in high nibble, unsigned constant in low nibble")),
  ("SRR", Mnemonic.op (Opcode.mk 0x24 "Byte Register in high nibble, unsigned constant in low nibble")),
  ("SLR", Mnemonic.op (Opcode.mk 0x25 "Byte Register in high nibble, unsigned constant in low nibble")),
  ("RRR", Mnemonic.op (Opcode.mk 0x26 "Byte Register in high nibble, unsigned constant in low nibble")),
  ("RLR", Mnemonic.op (Opcode.mk 0x27 "Byte Register in high nibble, unsigned constant in low nibble")),
  ("INAL", Mnemonic.op (Opcode.mk 0x28 "")),
  ("DCAL", Mnemonic.op (Opcode.mk 0x29 "")),
  ("CLAL", Mnemonic.op (Opcode.mk 0x2A "")),
  ("IVAL", Mnemonic.op (Opcode.mk 0x2B "")),
  ("SRAL", Mnemonic.op (Opcode.mk 0x2C "")),
  ("SLAL", Mnemonic.op (Opcode.mk 0x2D "")),
  ("INR", Mnemonic.op (Opcode.mk 0x30 "Word Register in high nibble, unsigned constant in low nibble")),
  ("DCR", Mnemonic.op (Opcode.mk 0x31 "Word Register in high nibble, unsigned constant in low nibble")),
  ("CLR", Mnemonic.op (Opcode.mk 0x32 "Word Register in high nibble, unsigned constant in low nibble")),
  ("IVR", Mnemonic.op (Opcode.mk 0x33 "Word Register in high nibble, unsigned constant in low nibble")),
  ("SRR", Mnemonic.op (Opcode.mk 0x34 "Word Register in high nibble, unsigned constant in low nibble")),
  ("SLR", Mnemonic.op (Opcode.mk 0x35 "Word Register in high nibble, unsigned constant in low nibble")),
  ("RRR", Mnemonic.op (Opcode.mk 0x36 "Word Register in high nibble, unsigned constant in low nibble")),
  ("RLR", Mnemonic.op (Opcode.mk 0x37 "Word Register in high nibble, unsigned constant in low nibble")),
  ("INAW", Mnemonic.op (Opcode.mk 0x38 "")),
  ("DCAW", Mnemonic.op (Opcode.mk 0x39 "")),
  ("CLAW", Mnemonic.op (Opcode.mk 0x3A "")),
  ("IVAW", Mnemonic.op (Opcode.mk 0x3B "")),
  ("SRAW", Mnemonic.op (Opcode.mk 0x3C "")),
  ("SLAW", Mnemonic.op (Opcode.mk 0x3D "")),
  ("INX", Mnemonic.op (Opcode.mk 0x3E "")),
  ("DCX", Mnemonic.op (Opcode.mk 0x3F "")),
  ("ADD", Mnemonic.op (Opcode.mk 0x40 "Byte register, Byte register")),
  ("SUB", Mnemonic.op (Opcode.mk 0x41 "Byte register, Byte register")),
  ("AND", Mnemonic.op (Opcode.mk 0x42 "Byte register, Byte register")),
  ("ORI", Mnemonic.op (Opcode.mk 0x43 "Byte register, Byte register")),
  ("ORE", Mnemonic.op (Opcode.mk 0x44 "Byte register, Byte register")),
  ("XFR", Mnemonic.op (Opcode.mk 0x45 "Byte register, Byte register")),
  ("AABL", Mnemonic.op (Opcode.mk 0x48 "")),
  ("SABL", Mnemonic.op (Opcode.mk 0x49 "")),
  ("NABL", Mnemonic.op (Opcode.mk 0x4A "")),
  ("XAXL", Mnemonic.op (Opcode.mk 0x4B "")),
  ("XAYL", Mnemonic.op (Opcode.mk 0x4C "")),
  ("XABL", Mnemonic.op (Opcode.mk 0x4D "")),
  ("XAZL", Mnemonic.op (Opcode.mk 0x4E "")),
  ("XASL", Mnemonic.op (Opcode.mk 0x4F "")),
  ("ADD", Mnemonic.op (Opcode.mk 0x50 "Word Register, Word Register")),
  ("SUB", Mnemonic.op (Opcode.mk 0x51 "Word Register, Word Register")),
  ("AND", Mnemonic.op (Opcode.mk 0x52 "Word Register, Word Register")),
  ("ORI", Mnemonic.op (Opcode.mk 0x53 "Word Register, Word Register")),
  ("ORE", Mnemonic.op (Opcode.mk 0x54 "Word Register, Word Register")),
  ("XFR", Mnemonic.op (Opcode.mk 0x55 "Word Register, Word Register")),
  ("AABW", Mnemonic.op (Opcode.mk 0x58 "")),
  ("SABW", Mnemonic.op (Opcode.mk 0x59 "")),
  ("NABW", Mnemonic.op (Opcode.mk 0x5A "")),
  ("XAXW", Mnemonic.op (Opcode.mk 0x5B "")),
  ("XAYW", Mnemonic.op (Opcode.mk 0x5C "")),
  ("XABW", Mnemonic.op (Opcode.mk 0x5D "")),
  ("XAZW", Mnemonic.op (Opcode.mk 0x5E "")),
  ("XASW", Mnemonic.op (Opcode.mk 0x5F "")),
  ("LDXW", Mnemonic.grp (OpcodeGroup.mk
    (some (Opcode.mk 0x60 "#Literal"))
    (some (Opcode.mk 0x61 "Direct"))
    (some (Opcode.mk 0x62 "[Indirect]"))
    (some (Opcode.mk 0x63 "PC+N"))
    (some (Opcode.mk 0x64 "[PC+N]"))
    (some (Opcode.mk 0x65 "Word Register, Mod.")))),
  ("STXW", Mnemonic.grp (OpcodeGroup.mk
    (some (Opcode.mk 0x68 "Store Location"))
    (some (Opcode.mk 0x69 "Direct"))
    (some (Opcode.mk 0x6A "[Indirect]"))
    (some (Opcode.mk 0x6B "PC+N"))
    (some (Opcode.mk 0x6C "[PC+N]"))
    (some (Opcode.mk 0x6D "Word Register, Mod.")))),
  ("JMP", Mnemonic.grp (OpcodeGroup.mk
    (some (Opcode.mk 0x70 "#Literal"))
    (some (Opcode.mk 0x71 "Direct"))
    (some (Opcode.mk 0x72 "[Indirect]"))
    (some (Opcode.mk 0x73 "PC+N"))
    (some (Opcode.mk 0x74 "[PC+N]"))
    (some (Opcode.mk 0x75 "Word Register, Mod.")))),
  ("SYSCALL", Mnemonic.op (Opcode.mk 0x76 "")),
  ("JSR", Mnemonic.grp (OpcodeGroup.mk
    (some (Opcode.mk 0x78 "#Literal"))
    (some (Opcode.mk 0x79 "Direct"))
    (some (Opcode.mk 0x7A "[Indirect]"))
    (some (Opcode.mk 0x7B "PC+N"))
    (some (Opcode.mk 0x7C "[PC+N]"))
    (some (Opcode.mk 0x7D "Word Register, Mod.")))),
  ("LDAL", Mnemonic.grp (OpcodeGroup.mk
    (some (Opcode.mk 0x80 "#Literal"))
    (some (Opcode.mk 0x81 "Direct"))
    (some (Opcode.mk 0x82 "[Indirect]"))
    (some (Opcode.mk 0x83 "PC+N"))
    (some (Opcode.mk 0x84 "[PC+N]"))
    (some (Opcode.mk 0x85 "Word Register, Mod.")))),
  ("LALA", Mnemonic.op (Opcode.mk 0x88 "")),
  ("LALB", Mnemonic.op (Opcode.mk 0x89 "")),
  ("LALX", Mnemonic.op (Opcode.mk 0x8A "")),
  ("LALY", Mnemonic.op (Opcode.mk 0x8B "")),
  ("LALZ", Mnemonic.op (Opcode.mk 0x8C "")),
  ("LALS", Mnemonic.op (Opcode.mk 0x8D "")),
  ("LALC", Mnemonic.op (Opcode.mk 0x8E "")),
  ("LALP", Mnemonic.op (Opcode.mk 0x8F "")),
  ("LDAW", Mnemonic.grp (OpcodeGroup.mk
    (some (Opcode.mk 0x90 "#Literal"))
    (some (Opcode.mk 0x91 "Direct"))
    (some (Opcode.mk 0x92 "[Indirect]"))
    (some (Opcode.mk 0x93 "PC+N"))
    (some (Opcode.mk 0x94 "[PC+N]"))
    (some (Opcode.mk 0x95 "Word Register, Mod.")))),
  ("LAWA", Mnemonic.op (Opcode.mk 0x98 "")),
  ("LAWB", Mnemonic.op (Opcode.mk 0x99 "")),
  ("LAWX", Mnemonic.op (Opcode.mk 0x9A "")),
  ("LAWY", Mnemonic.op (Opcode.mk 0x9B "")),
  ("LAWZ", Mnemonic.op (Opcode.mk 0x9C "")),
  ("LAWS", Mnemonic.op (Opcode.mk 0x9D "")),
  ("LAWC", Mnemonic.op (Opcode.mk 0x9E "")),
  ("LAWP", Mnemonic.op (Opcode.mk 0x9F "")),
  ("STAL", Mnemonic.grp (OpcodeGroup.mk
    (some (Opcode.mk 0xA0 "Store Location"))
    (some (Opcode.mk 0xA1 "Direct"))
    (some (Opcode.mk 0xA2 "[Indirect]"))
    (some (Opcode.mk 0xA3 "PC+N"))
    (some (Opcode.mk 0xA4 "[PC+N]"))
    (some (Opcode.mk 0xA5 "Word Register, Mod.")))),
  ("SALA", Mnemonic.op (Opcode.mk 0xA8 "")),
  ("SALB", Mnemonic.op (Opcode.mk 0xA9 "")),
  ("SALX", Mnemonic.op (Opcode.mk 0xAA "")),
  ("SALY", Mnemonic.op (Opcode.mk 0xAB "")),
  ("SALZ", Mnemonic.op (Opcode.mk 0xAC "")),
  ("SALS", Mnemonic.op (Opcode.mk 0xAD "")),
  ("SALC", Mnemonic.op (Opcode.mk 0xAE "")),
  ("SALP", Mnemonic.op (Opcode.mk 0xAF "")),
  ("STAW", Mnemonic.grp (OpcodeGroup.mk
    (some (Opcode.mk 0xB0 "Store Location"))
    (some (Opcode.mk 0xB1 "Direct"))
    (some (Opcode.mk 0xB2 "[Indirect]"))
    (some (Opcode.mk 0xB3 "PC+N"))
    (some (Opcode.mk 0xB4 "[PC+N]"))
    (some (Opcode.mk 0xB5 "Word Register, Mod.")))),
  ("SAWA", Mnemonic.op (Opcode.mk 0xB8 "")),
  ("SAWB", Mnemonic.op (Opcode.mk 0xB9 "")),
  ("SAWX", Mnemonic.op (Opcode.mk 0xBA "")),
  ("SAWY", Mnemonic.op (Opcode.mk 0xBB "")),
  ("SAWZ", Mnemonic.op (Opcode.mk 0xBC "")),
  ("SAWS", Mnemonic.op (Opcode.mk 0xBD "")),
  ("SAWC", Mnemonic.op (Opcode.mk 0xBE "")),
  ("SAWP", Mnemonic.op (Opcode.mk 0xBF "")),
  ("LDBL", Mnemonic.grp (OpcodeGroup.mk
    (some (Opcode.mk 0xC0 "#Literal"))
    (some (Opcode.mk 0xC1 "Direct"))
    (some (Opcode.mk 0xC2 "[Indirect]"))
    (some (Opcode.mk 0xC3 "PC+N"))
    (some (Opcode.mk 0xC4 "[PC+N]"))
    (some (Opcode.mk 0xC5 "Word Register, Mod.")))),
  ("LBLA", Mnemonic.op (Opcode.mk 0xC8 "")),
  ("LBLB", Mnemonic.op (Opcode.mk 0xC9 "")),
  ("LBLX", Mnemonic.op (Opcode.mk 0xCA "")),
  ("LBLY", Mnemonic.op (Opcode.mk 0xCB "")),
  ("LBLZ", Mnemonic.op (Opcode.mk 0xCC "")),
  ("LBLS", Mnemonic.op (Opcode.mk 0xCD "")),
  ("LBLC", Mnemonic.op (Opcode.mk 0xCE "")),
  ("LBLP", Mnemonic.op (Opcode.mk 0xCF "")),
  ("LDBW", Mnemonic.grp (OpcodeGroup.mk
    (some (Opcode.mk 0xD0 "#Literal"))
    (some (Opcode.mk 0xD1 "Direct"))
    (some (Opcode.mk 0xD2 "[Indirect]"))
    (some (Opcode.mk 0xD3 "PC+N"))
    (some (Opcode.mk 0xD4 "[PC+N]"))
    (some (Opcode.mk 0xD5 "Word Register, Mod.")))),
  ("LBWA", Mnemonic.op (Opcode.mk 0xD8 "")),
  ("LBWB", Mnemonic.op (Opcode.mk 0xD9 "")),
  ("LBWX", Mnemonic.op (Opcode.mk 0xDA "")),
  ("LDBW", Mnemonic.op (Opcode.mk 0xDB "")),
  ("LBWZ", Mnemonic.op (Opcode.mk 0xDC "")),
  ("LBWS", Mnemonic.op (Opcode.mk 0xDD "")),
  ("LBWC", Mnemonic.op (Opcode.mk 0xDE "")),
  ("LBWP", Mnemonic.op (Opcode.mk 0xDF "")),
  ("STBL", Mnemonic.grp (OpcodeGroup.mk
    (some (Opcode.mk 0xE0 "Store Location"))
    (some (Opcode.mk 0xE1 "Direct"))
    (some (Opcode.mk 0xE2 "[Indirect]"))
    (some (Opcode.mk 0xE3 "PC+N"))
    (some (Opcode.mk 0xE4 "[PC+N]"))
    (some (Opcode.mk 0xE5 "Word Register, Mod.")))),
  ("SBLA", Mnemonic.op (Opcode.mk 0xE8 "")),
  ("SBLB", Mnemonic.op (Opcode.mk 0xE9 "")),
  ("SBLX", Mnemonic.op (Opcode.mk 0xEA "")),
  ("SBLY", Mnemonic.op (Opcode.mk 0xEB "")),
  ("SBLZ", Mnemonic.op (Opcode.mk 0xEC "")),
  ("SBLS", Mnemonic.op (Opcode.mk 0xED "")),
  ("SBLC", Mnemonic.op (Opcode.mk 0xEE "")),
  ("SBLP", Mnemonic.op (Opcode.mk 0xEF "")),
  ("STBW", Mnemonic.grp (OpcodeGroup.mk
    (some (Opcode.mk 0xF0 "Store Location"))
    (some (Opcode.mk 0xF1 "Direct"))
    (some (Opcode.mk 0xF2 "[Indirect]"))
    (some (Opcode.mk 0xF3 "PC+N"))
    (some (Opcode.mk 0xF4 "[PC+N]"))
    (some (Opcode.mk 0xF5 "Word Register, Mod.")))),
  ("SBWA", Mnemonic.op (Opcode.mk 0xF8 "")),
  ("SBWB", Mnemonic.op (Opcode.mk 0xF9 "")),
  ("SBWX", Mnemonic.op (Opcode.mk 0xFA "")),
  ("SBWY", Mnemonic.op (Opcode.mk 0xFB "")),
  ("SBWZ", Mnemonic.op (Opcode.mk 0xFC "")),
  ("SBWS", Mnemonic.op (Opcode.mk 0xFD "")),
  ("SBWC", Mnemonic.op (Opcode.mk 0xFE "")),
  ("SBWP", Mnemonic.op (Opcode.mk 0xFF ""))]

/-- Lookup in the constructed `MNEMONICS` dict: for a duplicated key the
later binding in the literal wins, so we take the first hit in the reversed
entry list. Models `MNEMONICS[operand]` succeeding, `none` is `KeyError`. -/
def MNEMONICS_lookup (k : String) : Option Mnemonic :=
  MNEMONICS_entries.reverse.lookup k

/-- The whitespace characters Python's `str.strip()` and the regex class
`\s` treat as whitespace in the ASCII range (the only ones a source line
can contain here). -/
def isPySpace (c : Char) : Bool :=
  c = ' ' || c = '\t' || c = '\n' || c = '\r' || c = '\x0b' || c = '\x0c'

/-- Python `str.strip()` on a character list: drop whitespace from both
ends. -/
def pyStripL (cs : List Char) : List Char :=
  ((cs.dropWhile isPySpace).reverse.dropWhile isPySpace).reverse

/-- The substitution `re.compile(r"^(.*?)(?:;.+)?$").sub(r"\1", line)`
(src/assembler.py lines 326 and 330): the optional comment part needs a
semicolon followed by AT LEAST ONE character (`;.+`), so everything from
the first such semicolon on is dropped, while a semicolon that is the last
character of the line stays. -/
def stripComment : List Char → List Char
  | [] => []
  | c :: rest => if c = ';' ∧ rest ≠ [] then [] else c :: stripComment rest

/-- Models `line_cleaner.sub(r"\1", line).strip()` (src/assembler.py line 330). -/
def cleanLine (line : String) : String :=
  String.mk (pyStripL (stripComment line.data))

/-- Helper for `splitWs`: accumulates the current word (reversed) while
scanning. -/
def wordsAux : List Char → List Char → List String
  | [], acc => if acc = [] then [] else [String.mk acc.reverse]
  | c :: rest, acc =>
      if isPySpace c then
        if acc = [] then wordsAux rest []
        else String.mk acc.reverse :: wordsAux rest []
      else wordsAux rest (c :: acc)

/-- Models `re.split(r"\s+", line)` (src/assembler.py line 334) as the code uses
it: the split is only ever applied to an already stripped, non-empty line,
on which it returns the maximal whitespace-free words in order, with no
empty fields. -/
def splitWs (s : String) : List String :=
  wordsAux s.data []

/-- The token the loop body looks up in `MNEMONICS` for a given raw source
line (src/assembler.py lines 330–338): clean the line, skip it when empty,
otherwise split on whitespace and take `terms.pop(-1)` — the LAST token —
which the code binds to the variable `operand` and then uses as the dict
key. -/
def lineKey (line : String) : Option String :=
  let cleaned := cleanLine line
  if cleaned = "" then none
  else some ((splitWs cleaned).getLastD "")

/-- One iteration of the `for line in source` loop in `assemble`
(src/assembler.py lines 329–346), acting on the accumulated
`out_buf["_default"]` byte list. A blank cleaned line hits `continue`; a
`KeyError` from the dict lookup hits `continue` (the `TODO: support
labels` branch); the `OpcodeGroup` branch and the `else` branch are both
`pass`. Every branch leaves the buffer untouched. -/
def assembleLine (st : List Nat) (line : String) : List Nat :=
  match lineKey line with
  | none => st
  | some k =>
      match MNEMONICS_lookup k with
      | none => st
      | some (Mnemonic.grp _) => st
      | some (Mnemonic.op _) => st

/-- The `assemble` function (src/assembler.py lines 325–346) on the list of
lines of the input file, returning the final `out_buf["_default"]` byte
list (initialised to `[]` on line 327 and the only buffer the function ever
creates). The Python function's return value itself is `None`. -/
def assemble (lines : List String) : List Nat :=
  lines.foldl assembleLine []

/-- The observable outcome of one run of the script. -/
structure RunResult where
  exitCode : Nat
  imageWritten : Option (List Nat)
  stderrLines : List String
deriving DecidableEq, Repr

/-- The `__main__` block (src/assembler.py lines 349–351): it calls
`assemble` and discards its result. The module contains no `print`, no
`sys.exit` and no file opened for writing, so the interpreter always
finishes with exit status 0, writes no output image, and prints nothing to
the error stream. -/
def main_run (lines : List String) : RunResult :=
  let _discarded := assemble lines
  { exitCode := 0, imageWritten := none, stderrLines := [] }

/-- Checks the mode-offset layout of one `OpcodeGroup`: all six fields
present and the opcodes of the five non-literal modes are the literal
opcode plus 1, 2, 3, 4, 5 in the order direct, indirect, pc_direct,
pc_indirect, register. -/
def groupOffsetsOk (g : OpcodeGroup) : Bool :=
  match g.literal, g.direct, g.indirect, g.pc_direct, g.pc_indirect, g.register with
  | some l, some d, some ind, some pd, some pcd, some r =>
      (d.instr == l.instr + 1) && (ind.instr == l.instr + 2) &&
      (pd.instr == l.instr + 3) && (pcd.instr == l.instr + 4) &&
      (r.instr == l.instr + 5)
  | _, _, _, _, _, _ => false

/-- A catalog entry is offset-correct when it is a plain `Opcode` (nothing
to check) or an `OpcodeGroup` passing `groupOffsetsOk`. -/
def entryGroupsOk : String × Mnemonic → Bool
  | (_, Mnemonic.grp g) => groupOffsetsOk g
  | (_, Mnemonic.op _) => true

/-- Modelled from the spec: comment stripping as the specification words
it — remove everything from the first UNESCAPED semicolon (here: a
semicolon not immediately preceded by a backslash) through the end of the
line, whether or not anything follows it. Compared against `stripComment`,
the embedding of the code's regex. -/
def specStripComment : List Char → List Char
  | [] => []
  | '\\' :: ';' :: rest => '\\' :: ';' :: specStripComment rest
  | ';' :: _ => []
  | c :: rest => c :: specStripComment rest

/-- Modelled from the spec: the whole line-cleaning step as the
specification describes it — strip from the first unescaped semicolon to
end of line, then trim surrounding whitespace. -/
def specCleanLine (line : String) : String :=
  String.mk (pyStripL (specStripComment line.data))

/-- Every branch of the loop body leaves the output buffer unchanged: the
blank-line `continue`, the `KeyError` `continue`, and the two `pass`
branches. -/
theorem assembleLine_eq (st : List Nat) (line : String) :
    assembleLine st line = st := by
  unfold assembleLine
  split
  · rfl
  · split <;> rfl

/-- Folding the loop body over any list of lines returns the initial
buffer unchanged. -/
theorem foldl_assembleLine (lines : List String) :
    ∀ st : List Nat, lines.foldl assembleLine st = st := by
  induction lines with
  | nil => intro st; rfl
  | cons l ls ih =>
      intro st
      simp only [List.foldl_cons, assembleLine_eq]
      exact ih st

/-- When the first semicolon of a line has at least one character after
it, the code's regex drops it and everything beyond it. -/
theorem stripComment_comment (pre post : List Char) (h1 : ';' ∉ pre)
    (h2 : post ≠ []) : stripComment (pre ++ ';' :: post) = pre := by
  induction pre with
  | nil => simp [stripComment, h2]
  | cons a pre ih =>
      have ha : a ≠ ';' := fun h => h1 (h ▸ List.mem_cons_self a pre)
      have h1' : ';' ∉ pre := fun h => h1 (List.mem_cons_of_mem a h)
      simp [stripComment, ha, ih h1']

/-- A semicolon that is the last character of the line is kept by the
code's regex. -/
theorem stripComment_trailing (pre : List Char) (h1 : ';' ∉ pre) :
    stripComment (pre ++ [';']) = pre ++ [';'] := by
  induction pre with
  | nil => simp [stripComment]
  | cons a pre ih =>
      have ha : a ≠ ';' := fun h => h1 (h ▸ List.mem_cons_self a pre)
      have h1' : ';' ∉ pre := fun h => h1 (List.mem_cons_of_mem a h)
      simp [stripComment, ha, ih h1']

/-- A line without a semicolon passes through the regex untouched. -/
theorem stripComment_no_semi (l : List Char) (h : ';' ∉ l) :
    stripComment l = l := by
  induction l with
  | nil => rfl
  | cons a l ih =>
      have ha : a ≠ ';' := fun h' => h (h' ▸ List.mem_cons_self a l)
      have h' : ';' ∉ l := fun hm => h (List.mem_cons_of_mem a hm)
      simp [stripComment, ha, ih h']

/-- C1: evaluating the code at the spec's worked example. For the two-line
source `START: NOP` then `BL START` the `assemble` function emits no bytes
at all — the output buffer stays empty instead of holding the claimed
`0x01, 0x10, 0xFE` (the first line's last token `NOP` reaches the `pass`
branch, the second line's last token `START` raises `KeyError` and is
skipped). -/
theorem assemble_example_emits_nothing :
    assemble ["START: NOP", "BL START"] = [] :=
  foldl_assembleLine _ _

/-- C2: `NOP` is a fixed (no-operand) mnemonic with catalog base opcode
`0x01`, yet assembling the line `NOP` appends no byte to the output image:
the plain-`Opcode` branch of the loop is `pass`. -/
theorem fixed_mnemonic_emits_no_byte :
    MNEMONICS_lookup "NOP" = some (Mnemonic.op ⟨0x1, ""⟩) ∧
    assemble ["NOP"] = [] :=
  ⟨by decide, foldl_assembleLine _ _⟩

/-- C3: every `OpcodeGroup` entry written in the `MNEMONICS` dict literal
has all six addressing-mode opcodes present with offsets exactly
{0,1,2,3,4,5} from the literal-mode opcode, in the order literal, direct,
indirect, pc_direct, pc_indirect, register. The check runs over every
entry of the literal, so it also covers the one group (`LDBW`) whose key a
later binding overwrites. -/
theorem mnemonics_mode_offsets :
    MNEMONICS_entries.all entryGroupsOk = true := by decide

/-- C4: the parser does NOT take the first whitespace-separated token as
the catalog key: `terms.pop(-1)` pops the LAST token. On the line
`BL START` the tokens are `BL` and `START`, and the token looked up in
`MNEMONICS` is `START`, not the mnemonic `BL`. -/
theorem lookup_uses_last_token :
    splitWs (cleanLine "BL START") = ["BL", "START"] ∧
    lineKey "BL START" = some "START" := by decide

/-- C5: a line whose looked-up token (`FOO`) is not a key of the catalog is
silently skipped by `except KeyError: continue` — the run records no
diagnostic of any kind and the output buffer is unchanged. -/
theorem unknown_mnemonic_silently_skipped :
    lineKey "FOO" = some "FOO" ∧
    MNEMONICS_lookup "FOO" = none ∧
    assemble ["FOO"] = [] :=
  ⟨by decide, by decide, foldl_assembleLine _ _⟩

/-- C6: catalog construction does not reject duplicate keys: the dict
literal writes the key `INR` twice (byte-register variant `0x20`, then
word-register variant `0x30`); the constructed dict silently keeps only the
later binding, so the `0x20` variant is unreachable through lookup even
though its entry was evaluated. -/
theorem duplicate_key_silently_overwritten :
    (MNEMONICS_entries.map Prod.fst).count "INR" = 2 ∧
    MNEMONICS_lookup "INR" =
      some (Mnemonic.op ⟨0x30,
        "Word Register in high nibble, unsigned constant in low nibble"⟩) ∧
    ("INR", Mnemonic.op ⟨0x20,
        "Byte Register in high nibble, unsigned constant in low nibble"⟩)
      ∈ MNEMONICS_entries := by decide

/-- C7: evaluating the `__main__` behaviour: on a valid one-instruction
program the script exits 0 but writes no output image, and on a program
whose only line cannot be assembled it still exits 0 and prints nothing to
the error stream — there is no diagnostic reporting and no image writing
anywhere in the module. -/
theorem main_exit_zero_nothing_written :
    main_run ["NOP"] = ⟨0, none, []⟩ ∧
    main_run ["FOO"] = ⟨0, none, []⟩ :=
  ⟨rfl, rfl⟩

/-- C8 (counterexample): the code's regex `^(.*?)(?:;.+)?$` only strips a
semicolon that has at least one character after it, and it ignores
escaping. On `NOP;` the code keeps the bare trailing semicolon while the
claimed rule would delete it; on a line whose first semicolon is preceded
by a backslash the code strips from that escaped semicolon while the
claimed rule would keep it. -/
theorem cleanLine_spec_counterexample :
    cleanLine "NOP;" = "NOP;" ∧ specCleanLine "NOP;" = "NOP" ∧
    cleanLine "A\\;B ;x" = "A\\" ∧ specCleanLine "A\\;B ;x" = "A\\;B" := by
  decide

/-- C8 (amended): for every input line, the parser removes everything from
the first semicolon that is followed by at least one character (escaped or
not) through the end of the line, and then trims surrounding whitespace;
a line ending in a bare semicolon keeps that semicolon (and is only
trimmed), and a line with no semicolon is only trimmed. -/
theorem cleanLine_amended (pre post : List Char) (h1 : ';' ∉ pre)
    (h2 : post ≠ []) :
    cleanLine (String.mk (pre ++ ';' :: post)) = String.mk (pyStripL pre) ∧
    cleanLine (String.mk (pre ++ [';'])) =
      String.mk (pyStripL (pre ++ [';'])) ∧
    cleanLine (String.mk pre) = String.mk (pyStripL pre) := by
  refine ⟨?_, ?_, ?_⟩
  · simp [cleanLine, stripComment_comment pre post h1 h2]
  · simp [cleanLine, stripComment_trailing pre h1]
  · simp [cleanLine, stripComment_no_semi pre h1]

/-- C8 (witness): the amended statement applied to the concrete line
`NOP ; comment`, whose pre-comment part `NOP ` has no semicolon and whose
comment part ` comment` is non-empty; the cleaned line is `NOP`. -/
theorem cleanLine_amended_witness :
    ';' ∉ "NOP ".data ∧ " comment".data ≠ ([] : List Char) ∧
    cleanLine (String.mk ("NOP ".data ++ ';' :: " comment".data)) =
      String.mk (pyStripL "NOP ".data) :=
  ⟨by decide, by decide,
    (cleanLine_amended "NOP ".data " comment".data (by decide) (by decide)).1⟩

/-- C9: the `assemble` function has no observable output on any input
file: the only buffer it creates stays empty on every list of source
lines, and a whole run of the script exits 0 having written no image and
printed nothing — every branch of the loop (blank-line `continue`,
`KeyError` `continue`, and the two `pass` arms) is a no-op. -/
theorem assemble_produces_nothing :
    ∀ lines : List String,
      assemble lines = [] ∧ main_run lines = ⟨0, none, []⟩ :=
  fun lines => ⟨foldl_assembleLine lines [], rfl⟩

/-- C10: in the constructed dict the key `LDBW` resolves to the plain
no-operand `Opcode 0xDB` written later in the literal, the earlier
`OpcodeGroup` with base `0xD0` bound to the same key is unreachable through
lookup, and no key `LBWY` exists in the catalog. -/
theorem ldbw_overwritten_by_plain_opcode :
    MNEMONICS_lookup "LDBW" = some (Mnemonic.op ⟨0xDB, ""⟩) ∧
    MNEMONICS_lookup "LBWY" = none ∧
    ("LDBW", Mnemonic.grp ⟨some ⟨0xD0, "#Literal"⟩, some ⟨0xD1, "Direct"⟩,
      some ⟨0xD2, "[Indirect]"⟩, some ⟨0xD3, "PC+N"⟩, some ⟨0xD4, "[PC+N]"⟩,
      some ⟨0xD5, "Word Register, Mod."⟩⟩) ∈ MNEMONICS_entries := by decide
